import Mathlib

/-!
Verification of the duration-matching core of `video_translate.py`.

Durations probed by `ffprobe` are modelled as `Option ℚ` (`none` = probe
failure), Python floats as `ℚ`. All arithmetic the planner performs —
division by `2.0` and by `0.5` and comparison against the literals `0.5`,
`1.0`, `2.0` — is exact in binary floating point, so the rational model is
faithful for the stated properties.
-/

namespace VideoTranslate

/-- Truthiness of an optional float, as Python evaluates it in a bare
`if x` test: `None` and `0.0` are falsy, every other value truthy. -/
def truthy : Option ℚ → Bool
  | none => false
  | some x => x ≠ 0

/-- Embedding of `calculate_optimal_speed` (video_translate.py lines
116-124): returns `audio_duration / video_duration` when both durations
are truthy and the audio duration is positive, and the fixed default
`1.5` otherwise. The guard mirrors the source condition
`if video_duration and audio_duration and audio_duration > 0`. -/
def calculate_optimal_speed (video_duration audio_duration : Option ℚ) : ℚ :=
  match video_duration, audio_duration with
  | some v, some a => if v ≠ 0 ∧ a ≠ 0 ∧ 0 < a then a / v else 3/2
  | _, _ => 3/2

/-- Helper for the well-founded recursion of the two decomposition loops:
halving a rational above `2` strictly shrinks its ceiling. -/
theorem ceil_half_toNat_lt {f : ℚ} (h : 2 < f) :
    (⌈f / 2⌉).toNat < (⌈f⌉).toNat := by
  have h2 : f / 2 ≤ f - 1 := by linarith
  have hpos : (0 : ℚ) < f / 2 := by linarith
  have hc1 : 0 < ⌈f / 2⌉ := Int.ceil_pos.mpr hpos
  have hc2 : ⌈f / 2⌉ ≤ ⌈f - 1⌉ := Int.ceil_le_ceil h2
  have hc3 : ⌈f - (1 : ℚ)⌉ = ⌈f⌉ - 1 := by
    exact_mod_cast Int.ceil_sub_int f (1 : ℤ)
  rw [hc3] at hc2
  omega

/-- Embedding of the high-factor decomposition loop (video_translate.py
lines 245-251): while the remaining factor exceeds `2.0` emit a `2.0`
stage and halve the remainder; afterwards, if the remainder exceeds
`1.0`, emit it as the final stage. -/
def chainHigh (f : ℚ) : List ℚ :=
  if h : 2 < f then 2 :: chainHigh (f / 2)
  else if 1 < f then [f] else []
termination_by (⌈f⌉).toNat
decreasing_by exact ceil_half_toNat_lt h

/-- Unfolding equation for one iteration of the high-factor loop. -/
theorem chainHigh_step {f : ℚ} (h : 2 < f) :
    chainHigh f = 2 :: chainHigh (f / 2) := by
  rw [chainHigh, dif_pos h]

/-- Unfolding equation for the high-factor loop once the remainder is in
`(1, 2]`. -/
theorem chainHigh_last {f : ℚ} (h1 : ¬ 2 < f) (h2 : 1 < f) :
    chainHigh f = [f] := by
  rw [chainHigh, dif_neg h1, if_pos h2]

/-- Embedding of the low-factor decomposition loop (video_translate.py
lines 257-263): while the remaining factor is below `0.5` emit a `0.5`
stage and divide the remainder by `0.5`; afterwards, if the remainder is
below `1.0`, emit it as the final stage. The source loop does not
terminate for non-positive factors (a non-positive remainder stays
non-positive, so `remaining_factor < 0.5` never becomes false); the
`0 < f` conjunct in the recursion guard restricts the model to the
terminating region, and every theorem taking this branch assumes a
positive factor. -/
def chainLow (f : ℚ) : List ℚ :=
  if h : 0 < f ∧ f < 1/2 then (1/2 : ℚ) :: chainLow (f / (1/2))
  else if f < 1 then [f] else []
termination_by (⌈f⁻¹⌉).toNat
decreasing_by
  have hinv : 2 < f⁻¹ := by
    rw [← one_div, lt_div_iff₀ h.1]
    linarith [h.2]
  have heq : (f / (1/2))⁻¹ = f⁻¹ / 2 := by
    field_simp
  rw [heq]
  exact ceil_half_toNat_lt hinv

/-- Unfolding equation for one iteration of the low-factor loop. -/
theorem chainLow_step {f : ℚ} (h : 0 < f ∧ f < 1/2) :
    chainLow f = (1/2 : ℚ) :: chainLow (f / (1/2)) := by
  rw [chainLow, dif_pos h]

/-- Unfolding equation for the low-factor loop once the remainder is in
`[1/2, 1)`. -/
theorem chainLow_last {f : ℚ} (h1 : ¬ (0 < f ∧ f < 1/2)) (h2 : f < 1) :
    chainLow f = [f] := by
  rw [chainLow, dif_neg h1, if_pos h2]

/-- Embedding of the filter-chain construction in `main`
(video_translate.py lines 242-268): factors above `2.0` are decomposed by
the high loop, factors below `0.5` by the low loop, and anything in
`[0.5, 2.0]` becomes a single `atempo` stage. -/
def planStages (f : ℚ) : List ℚ :=
  if 2 < f then chainHigh f
  else if f < 1/2 then chainLow f
  else [f]

/-- Stage product of the high-factor loop: for any factor above `1` the
emitted stages multiply back to the factor. -/
theorem chainHigh_prod (f : ℚ) (hf : 1 < f) : (chainHigh f).prod = f := by
  by_cases h1 : 2 < f
  · rw [chainHigh_step h1, List.prod_cons,
      chainHigh_prod (f / 2) (by linarith)]
    ring
  · rw [chainHigh_last h1 hf]
    simp
termination_by (⌈f⌉).toNat
decreasing_by exact ceil_half_toNat_lt h1

/-- Stage product of the low-factor loop: for any factor in `(0, 1)` the
emitted stages multiply back to the factor. -/
theorem chainLow_prod (f : ℚ) (hf0 : 0 < f) (hf1 : f < 1) :
    (chainLow f).prod = f := by
  by_cases h1 : 0 < f ∧ f < 1/2
  · rw [chainLow_step h1, List.prod_cons,
      chainLow_prod (f / (1/2)) (by linarith) (by linarith [h1.2])]
    ring
  · rw [chainLow_last h1 hf1]
    simp
termination_by (⌈f⁻¹⌉).toNat
decreasing_by
  have hinv : 2 < f⁻¹ := by
    rw [← one_div, lt_div_iff₀ h1.1]
    linarith [h1.2]
  have heq : (f / (1/2))⁻¹ = f⁻¹ / 2 := by
    field_simp
  rw [heq]
  exact ceil_half_toNat_lt hinv

/-- Stage product of the full planner: exact reconstruction of any
positive factor. -/
theorem planStages_prod (f : ℚ) (hf : 0 < f) : (planStages f).prod = f := by
  unfold planStages
  split_ifs with h1 h2
  · exact chainHigh_prod f (by linarith)
  · exact chainLow_prod f hf (by linarith)
  · simp

/-- Every stage the high-factor loop emits lies in `[1/2, 2]`. -/
theorem chainHigh_mem (f : ℚ) (hf : 1 < f) :
    ∀ s ∈ chainHigh f, 1/2 ≤ s ∧ s ≤ 2 := by
  intro s hs
  by_cases h1 : 2 < f
  · rw [chainHigh_step h1, List.mem_cons] at hs
    rcases hs with h | h
    · subst h
      norm_num
    · exact chainHigh_mem (f / 2) (by linarith) s h
  · rw [chainHigh_last h1 hf, List.mem_singleton] at hs
    subst hs
    constructor <;> linarith
termination_by (⌈f⌉).toNat
decreasing_by exact ceil_half_toNat_lt h1

/-- Every stage the low-factor loop emits lies in `[1/2, 2]`. -/
theorem chainLow_mem (f : ℚ) (hf0 : 0 < f) (hf1 : f < 1) :
    ∀ s ∈ chainLow f, 1/2 ≤ s ∧ s ≤ 2 := by
  intro s hs
  by_cases h1 : 0 < f ∧ f < 1/2
  · rw [chainLow_step h1, List.mem_cons] at hs
    rcases hs with h | h
    · subst h
      norm_num
    · exact chainLow_mem (f / (1/2)) (by linarith) (by linarith [h1.2]) s h
  · rw [chainLow_last h1 hf1, List.mem_singleton] at hs
    have h2 : ¬ f < 1/2 := fun hc => h1 ⟨hf0, hc⟩
    rw [hs]
    constructor <;> linarith
termination_by (⌈f⁻¹⌉).toNat
decreasing_by
  have hinv : 2 < f⁻¹ := by
    rw [← one_div, lt_div_iff₀ h1.1]
    linarith [h1.2]
  have heq : (f / (1/2))⁻¹ = f⁻¹ / 2 := by
    field_simp
  rw [heq]
  exact ceil_half_toNat_lt hinv

/-- Iteration bound for the high-factor loop: the chain has length at most
`log₂ f + 1`, stated multiplicatively. -/
theorem chainHigh_len (f : ℚ) (hf : 1 < f) :
    (2 : ℚ) ^ (chainHigh f).length ≤ 2 * f := by
  by_cases h1 : 2 < f
  · rw [chainHigh_step h1, List.length_cons]
    have ih := chainHigh_len (f / 2) (by linarith)
    calc (2 : ℚ) ^ ((chainHigh (f / 2)).length + 1)
        = 2 * (2 : ℚ) ^ (chainHigh (f / 2)).length := by ring
      _ ≤ 2 * (2 * (f / 2)) := by linarith
      _ = 2 * f := by ring
  · rw [chainHigh_last h1 hf]
    norm_num
    linarith
termination_by (⌈f⌉).toNat
decreasing_by exact ceil_half_toNat_lt h1

/-- Iteration bound for the low-factor loop: the chain has length at most
`log₂ (1/f) + 1`, stated multiplicatively. -/
theorem chainLow_len (f : ℚ) (hf0 : 0 < f) (hf1 : f < 1) :
    (2 : ℚ) ^ (chainLow f).length ≤ 2 / f := by
  by_cases h1 : 0 < f ∧ f < 1/2
  · rw [chainLow_step h1, List.length_cons]
    have ih := chainLow_len (f / (1/2)) (by linarith) (by linarith [h1.2])
    have heq : (2 : ℚ) / (f / (1/2)) = 1 / f := by
      field_simp
      ring
    rw [heq] at ih
    calc (2 : ℚ) ^ ((chainLow (f / (1/2))).length + 1)
        = 2 * (2 : ℚ) ^ (chainLow (f / (1/2))).length := by ring
      _ ≤ 2 * (1 / f) := by linarith
      _ = 2 / f := by ring
  · rw [chainLow_last h1 hf1]
    norm_num
    rw [le_div_iff₀ hf0]
    linarith
termination_by (⌈f⁻¹⌉).toNat
decreasing_by
  have hinv : 2 < f⁻¹ := by
    rw [← one_div, lt_div_iff₀ h1.1]
    linarith [h1.2]
  have heq : (f / (1/2))⁻¹ = f⁻¹ / 2 := by
    field_simp
  rw [heq]
  exact ceil_half_toNat_lt hinv

/-- C1: for every speed factor in `(0, ∞)` other than `1.0`, the product
of the per-stage multipliers of the atempo chain built in `main`
(video_translate.py lines 242-268) equals the input factor within the
floating-point tolerance `1e-6` (in the exact rational model the product
reconstructs the factor exactly, so any tolerance is met). -/
theorem planStages_prod_within_tolerance (f : ℚ) (hf : 0 < f)
    (hne : f ≠ 1) : |(planStages f).prod - f| ≤ 1 / 1000000 := by
  rw [planStages_prod f hf]
  simp

/-- Witness for C1 at the concrete factor `3`. -/
theorem planStages_prod_within_tolerance_witness :
    (0 : ℚ) < 3 ∧ (3 : ℚ) ≠ 1 ∧
      |(planStages 3).prod - 3| ≤ 1 / 1000000 :=
  ⟨by norm_num, by norm_num,
    planStages_prod_within_tolerance 3 (by norm_num) (by norm_num)⟩

/-- C4: for every speed factor strictly greater than `0`, every per-stage
multiplier in the planned atempo chain lies in the closed interval
`[0.5, 2.0]`. -/
theorem planStages_mem_bounds (f : ℚ) (hf : 0 < f) :
    ∀ s ∈ planStages f, 1/2 ≤ s ∧ s ≤ 2 := by
  intro s hs
  unfold planStages at hs
  split_ifs at hs with h1 h2
  · exact chainHigh_mem f (by linarith) s hs
  · exact chainLow_mem f hf (by linarith) s hs
  · rw [List.mem_singleton] at hs
    subst hs
    constructor <;> linarith

/-- Witness for C4 at the concrete factor `1/10`. -/
theorem planStages_mem_bounds_witness :
    (0 : ℚ) < 1/10 ∧ ∀ s ∈ planStages (1/10), 1/2 ≤ s ∧ s ≤ 2 :=
  ⟨by norm_num, planStages_mem_bounds (1/10) (by norm_num)⟩

/-- C5: for every speed factor strictly greater than `0`, the
decomposition loops terminate — `planStages` is a total function whose
recursion is well-founded on the positive factors — and the number of
emitted stages (loop iterations plus at most one remainder stage) is
`O(log factor)`: `2 ^ length ≤ 2 * max f (1/f)`, i.e.
`length ≤ log₂ (max f (1/f)) + 1`. -/
theorem planStages_length_log_bound (f : ℚ) (hf : 0 < f) :
    (2 : ℚ) ^ (planStages f).length ≤ 2 * max f f⁻¹ := by
  unfold planStages
  split_ifs with h1 h2
  · have hb := chainHigh_len f (by linarith)
    have hm : f ≤ max f f⁻¹ := le_max_left f f⁻¹
    calc (2 : ℚ) ^ (chainHigh f).length ≤ 2 * f := hb
      _ ≤ 2 * max f f⁻¹ := by linarith
  · have hb := chainLow_len f hf (by linarith)
    have hd : (2 : ℚ) / f = 2 * f⁻¹ := by ring
    have hm : f⁻¹ ≤ max f f⁻¹ := le_max_right f f⁻¹
    rw [hd] at hb
    calc (2 : ℚ) ^ (chainLow f).length ≤ 2 * f⁻¹ := hb
      _ ≤ 2 * max f f⁻¹ := by linarith
  · have hm : 1 ≤ max f f⁻¹ := by
      rcases le_or_lt 1 f with h | h
      · exact le_trans h (le_max_left f f⁻¹)
      · have hinv : 1 ≤ f⁻¹ := one_le_inv_iff₀.mpr ⟨hf, le_of_lt h⟩
        exact le_trans hinv (le_max_right f f⁻¹)
    simp only [List.length_singleton, pow_one]
    linarith

/-- Witness for C5 at the concrete factor `100`. -/
theorem planStages_length_log_bound_witness :
    (0 : ℚ) < 100 ∧
      (2 : ℚ) ^ (planStages 100).length ≤ 2 * max 100 (100 : ℚ)⁻¹ :=
  ⟨by norm_num, planStages_length_log_bound 100 (by norm_num)⟩

/-- C2 counterexample: a negative reference (video) duration is truthy in
Python, so `calculate_optimal_speed(-5.0, 10.0)` returns the ratio
`10 / -5 = -2.0`, not the claimed default `1.5`. -/
theorem calculate_optimal_speed_negative_reference :
    calculate_optimal_speed (some (-5)) (some 10) = -2 ∧
      calculate_optimal_speed (some (-5)) (some 10) ≠ 3/2 := by
  constructor <;> norm_num [calculate_optimal_speed]

/-- C2 amended: `calculate_optimal_speed` returns exactly `1.5` whenever
either duration is absent (`None`) or zero, or the actual (audio)
duration is non-positive; but when the reference (video) duration is
negative while the actual duration is positive, it returns the negative
ratio `actual / reference` instead of `1.5`. -/
theorem calculate_optimal_speed_default (v a : Option ℚ) :
    ((v = none ∨ v = some 0 ∨ a = none ∨ (∃ x, a = some x ∧ x ≤ 0)) →
      calculate_optimal_speed v a = 3/2) ∧
    (∀ vv aa : ℚ, v = some vv → a = some aa → vv < 0 → 0 < aa →
      calculate_optimal_speed v a = aa / vv ∧ aa / vv < 0) := by
  constructor
  · intro h
    rcases h with h | h | h | ⟨x, hx, hx0⟩
    · subst h
      rfl
    · subst h
      cases a with
      | none => rfl
      | some aa => simp [calculate_optimal_speed]
    · subst h
      cases v with
      | none => rfl
      | some vv => rfl
    · subst hx
      cases v with
      | none => rfl
      | some vv =>
        simp only [calculate_optimal_speed, ite_eq_right_iff]
        intro hc
        exact absurd hc.2.2 (not_lt.mpr hx0)
  · intro vv aa hv ha hvneg hapos
    subst hv
    subst ha
    refine ⟨?_, div_neg_of_pos_of_neg hapos hvneg⟩
    simp only [calculate_optimal_speed, if_pos]
    rw [if_pos ⟨ne_of_lt hvneg, ne_of_gt hapos, hapos⟩]

/-- Witness for C2's amended statement, exercising both conjuncts: the
default at `(None, 10)` and the negative ratio at `(-5, 10)`. -/
theorem calculate_optimal_speed_default_witness :
    calculate_optimal_speed none (some 10) = 3/2 ∧
      (calculate_optimal_speed (some (-5)) (some 10) = 10 / (-5) ∧
        (10 : ℚ) / (-5) < 0) :=
  ⟨(calculate_optimal_speed_default none (some 10)).1 (Or.inl rfl),
    (calculate_optimal_speed_default (some (-5)) (some 10)).2 (-5) 10
      rfl rfl (by norm_num) (by norm_num)⟩

/-! ## File-system and orchestration model for `main`'s speed-adjustment
phase (video_translate.py lines 222-342).

Only the files `main` touches in that phase matter, so the file system is
a map from paths to optional byte contents. `os.rename` overwrites an
existing destination (POSIX semantics) and removes the source. A failed
external `ffmpeg` invocation may leave arbitrary partial content (or
nothing) at its output path; this junk is a parameter of the model so the
theorems cover every possible partial write. Python's `f'{x:.1f}'`
formatting raises `TypeError` when `x` is `None`; the phase contains such
prints at lines 223, 228, 282, 310 and 334, and only
`subprocess.CalledProcessError` is ever caught, so a `None` reaching one
of those prints aborts the run. -/

abbrev Path := String

abbrev Content := String

abbrev FS := Path → Option Content

/-- Write (or delete, with `none`) the content at a path. -/
def setFile (fs : FS) (p : Path) (c : Option Content) : FS :=
  fun q => if q = p then c else fs q

/-- Embedding of `os.rename src dst`: the destination receives the
source's content (overwriting anything there) and the source is gone. -/
def renameFile (fs : FS) (src dst : Path) : FS :=
  setFile (setFile fs dst (fs src)) src none

/-- Path of the synthesized Thai audio track inside the temporary
workspace (video_translate.py line 166). -/
def thai_mp3 : Path := "thai.mp3"

/-- Path the track is moved to before the rate-shift attempt
(video_translate.py line 237). -/
def temp_mp3 : Path := thai_mp3 ++ ".temp"

/-- Path the track is moved to before the truncation attempt
(video_translate.py line 295). -/
def temp_truncate : Path := thai_mp3 ++ ".truncate"

/-- Uncaught Python exception aborting the run. The only one this phase
can raise outside the guarded `subprocess` calls is the `TypeError` from
formatting `None` with `:.1f`. -/
inductive PyErr
  | typeError
  deriving DecidableEq

/-- Result of one external `ffmpeg` invocation: success with the produced
output content, or a non-zero exit (`subprocess.CalledProcessError`)
having left `junk` — possibly nothing, possibly a partial write — at the
output path. -/
inductive CallRes
  | ok (out : Content)
  | err (junk : Option Content)

/-- External-world behaviour for one run of the adjustment phase: the
outcome of each possible `ffmpeg` invocation and of each possible
post-mutation `ffprobe` reprobe. -/
structure Oracles where
  primary : CallRes
  rubber : CallRes
  truncCall : CallRes
  reprobe1 : Option ℚ
  reprobeTrunc : Option ℚ
  reprobeRb : Option ℚ

/-- Log entry for one external rate/trim invocation made by the phase. -/
inductive FilterCall
  | atempoChain (stages : List ℚ)
  | rubberband (factor : ℚ)
  | trim (target : ℚ)

/-- Outcome of the adjustment phase: either an uncaught exception aborted
the run, or the phase finished with a final file system and the list of
external filter invocations it made. -/
inductive PhaseResult
  | crashed (e : PyErr)
  | finished (fs : FS) (calls : List FilterCall)

/-- Whether the phase aborted with an uncaught exception. -/
def PhaseResult.isCrashed : PhaseResult → Bool
  | .crashed _ => true
  | .finished _ _ => false

/-- Content at a path after the phase (meaningful only for finished
runs). -/
def PhaseResult.trackContent (r : PhaseResult) (p : Path) : Option Content :=
  match r with
  | .crashed _ => none
  | .finished fs _ => fs p

/-- External filter invocations the phase made (meaningful only for
finished runs). -/
def PhaseResult.madeCalls : PhaseResult → List FilterCall
  | .crashed _ => []
  | .finished _ cs => cs

/-- Embedding of the speed-adjustment phase of `main` (video_translate.py
lines 222-342), from the two duration probes through the
`atempo`-chain attempt, the `rubberband` fallback and the truncation
safeguard. The structure mirrors the source exactly: the formatted
duration prints crash on `None`; `speed_factor != 1.0` gates the whole
adjustment; the nested `try`/`except` blocks catch only
`subprocess.CalledProcessError`. -/
def adjustPhase (video_duration audio_duration : Option ℚ) (o : Oracles)
    (fs : FS) : PhaseResult :=
  match video_duration with
  | none => .crashed .typeError
  | some v =>
    match audio_duration with
    | none => .crashed .typeError
    | some _ =>
      let speed_factor := calculate_optimal_speed video_duration audio_duration
      if speed_factor = 1 then .finished fs []
      else
        let fs1 := renameFile fs thai_mp3 temp_mp3
        let stages := planStages speed_factor
        match o.primary with
        | .ok out =>
          let fs2 := setFile (setFile fs1 thai_mp3 (some out)) temp_mp3 none
          match o.reprobe1 with
          | none => .crashed .typeError
          | some final1 =>
            if final1 ≠ 0 ∧ v ≠ 0 ∧ |final1 - v| > 1 then
              if final1 > v + 1 then
                let fs3 := renameFile fs2 thai_mp3 temp_truncate
                match o.truncCall with
                | .ok tout =>
                  let fs4 :=
                    setFile (setFile fs3 thai_mp3 (some tout)) temp_truncate none
                  match o.reprobeTrunc with
                  | none => .crashed .typeError
                  | some _ => .finished fs4 [.atempoChain stages, .trim v]
                | .err junk =>
                  let fs4 := setFile fs3 thai_mp3 junk
                  .finished (renameFile fs4 temp_truncate thai_mp3)
                    [.atempoChain stages, .trim v]
              else .finished fs2 [.atempoChain stages]
            else .finished fs2 [.atempoChain stages]
        | .err junk =>
          let fs2 := setFile fs1 thai_mp3 junk
          match o.rubber with
          | .ok out =>
            let fs3 := setFile (setFile fs2 thai_mp3 (some out)) temp_mp3 none
            match o.reprobeRb with
            | none => .crashed .typeError
            | some _ =>
              .finished fs3 [.atempoChain stages, .rubberband speed_factor]
          | .err junk2 =>
            let fs3 := setFile fs2 thai_mp3 junk2
            .finished (renameFile fs3 temp_mp3 thai_mp3)
              [.atempoChain stages, .rubberband speed_factor]

/-- Pointwise evaluation of `setFile` at the written path. -/
theorem setFile_self (fs : FS) (p : Path) (c : Option Content) :
    setFile fs p c p = c := by
  simp [setFile]

/-- Pointwise evaluation of `setFile` away from the written path. -/
theorem setFile_ne (fs : FS) (p : Path) (c : Option Content) (q : Path)
    (h : q ≠ p) : setFile fs p c q = fs q := by
  simp [setFile, h]

/-- The track path and the pre-adjustment temp path differ. -/
theorem thai_ne_temp : thai_mp3 ≠ temp_mp3 := by decide

/-- The track path and the pre-truncation temp path differ. -/
theorem thai_ne_trunc : thai_mp3 ≠ temp_truncate := by decide

/-- The two temp paths differ. -/
theorem temp_ne_trunc : temp_mp3 ≠ temp_truncate := by decide

/-- C6: when the computed speed factor is exactly `1.0`, the adjustment
phase takes the `else` branch of `if speed_factor != 1.0`
(video_translate.py lines 234, 341-342): it makes no external filter
invocation at all and passes the synthesized audio file downstream
byte-for-byte unmodified (every path of the file system is untouched). -/
theorem adjustPhase_factor_one (video_duration audio_duration : Option ℚ)
    (v a : ℚ) (o : Oracles) (fs : FS)
    (hv : video_duration = some v) (ha : audio_duration = some a)
    (h1 : calculate_optimal_speed video_duration audio_duration = 1) :
    adjustPhase video_duration audio_duration o fs = .finished fs [] := by
  subst hv
  subst ha
  simp [adjustPhase, h1]

/-- Witness for C6: equal probed durations give factor `1` and an
untouched track. -/
theorem adjustPhase_factor_one_witness :
    calculate_optimal_speed (some 10) (some 10) = 1 ∧
      adjustPhase (some 10) (some 10)
        ⟨.err none, .err none, .err none, none, none, none⟩
        (fun p => if p = thai_mp3 then some "tts" else none) =
      .finished (fun p => if p = thai_mp3 then some "tts" else none) [] :=
  ⟨by norm_num [calculate_optimal_speed],
    adjustPhase_factor_one (some 10) (some 10) 10 10
      ⟨.err none, .err none, .err none, none, none, none⟩
      (fun p => if p = thai_mp3 then some "tts" else none)
      rfl rfl (by norm_num [calculate_optimal_speed])⟩

/-- C7: when the primary chained-`atempo` invocation and the `rubberband`
fallback both fail (video_translate.py lines 317-340), the phase finishes
without an exception, the content at the track's original path equals the
pre-call content byte for byte (the original was parked at the temp path
and is renamed back, overwriting any partial output), and the temp path
is gone. The positivity hypothesis keeps the model inside the region
where the source's planning loops terminate. -/
theorem adjustPhase_both_filters_fail (v a : ℚ) (o : Oracles) (fs : FS)
    (j1 j2 : Option Content)
    (hp : o.primary = .err j1) (hr : o.rubber = .err j2)
    (hne : calculate_optimal_speed (some v) (some a) ≠ 1)
    (hpos : 0 < calculate_optimal_speed (some v) (some a)) :
    (adjustPhase (some v) (some a) o fs).isCrashed = false ∧
    (adjustPhase (some v) (some a) o fs).trackContent thai_mp3 =
      fs thai_mp3 ∧
    (adjustPhase (some v) (some a) o fs).trackContent temp_mp3 = none ∧
    (adjustPhase (some v) (some a) o fs).madeCalls =
      [.atempoChain (planStages (calculate_optimal_speed (some v) (some a))),
        .rubberband (calculate_optimal_speed (some v) (some a))] := by
  simp only [adjustPhase, hp, hr, if_neg hne]
  refine ⟨rfl, ?_, ?_, rfl⟩
  · show renameFile _ temp_mp3 thai_mp3 thai_mp3 = fs thai_mp3
    rw [renameFile, setFile_ne _ _ _ _ thai_ne_temp, setFile_self,
      renameFile, setFile_ne _ _ _ _ (Ne.symm thai_ne_temp),
      setFile_ne _ _ _ _ (Ne.symm thai_ne_temp),
      setFile_ne _ _ _ _ (Ne.symm thai_ne_temp), setFile_self]
  · show renameFile _ temp_mp3 thai_mp3 temp_mp3 = none
    rw [renameFile, setFile_self]

/-- Witness for C7: factor `2`, both filters failing with partial junk,
on a track holding `"tts"`. -/
theorem adjustPhase_both_filters_fail_witness :
    ((⟨.err (some "partial"), .err none, .err none, none, none,
        none⟩ : Oracles).primary = .err (some "partial")) ∧
    (adjustPhase (some 10) (some 20)
      ⟨.err (some "partial"), .err none, .err none, none, none, none⟩
      (fun p => if p = thai_mp3 then some "tts" else none)).trackContent
        thai_mp3 =
      (fun p => if p = thai_mp3 then some "tts" else none) thai_mp3 :=
  ⟨rfl,
    (adjustPhase_both_filters_fail 10 20
      ⟨.err (some "partial"), .err none, .err none, none, none, none⟩
      (fun p => if p = thai_mp3 then some "tts" else none)
      (some "partial") none rfl rfl
      (by norm_num [calculate_optimal_speed])
      (by norm_num [calculate_optimal_speed])).2.1⟩

/-- C8: when the post-adjustment check finds the track still more than
one second too long and the truncation `ffmpeg` call fails
(video_translate.py lines 291-316), the speed-adjusted track is renamed
back to its original path unmodified, the phase finishes without an
exception (truncation failure is non-fatal) and the run continues with
the rate-only result. -/
theorem adjustPhase_trunc_fail_restores (v a final1 : ℚ) (o : Oracles)
    (fs : FS) (out : Content) (junk : Option Content)
    (hp : o.primary = .ok out) (hre : o.reprobe1 = some final1)
    (ht : o.truncCall = .err junk)
    (hne : calculate_optimal_speed (some v) (some a) ≠ 1)
    (hpos : 0 < calculate_optimal_speed (some v) (some a))
    (hf0 : final1 ≠ 0) (hv0 : v ≠ 0) (hdiff : |final1 - v| > 1)
    (hlong : final1 > v + 1) :
    (adjustPhase (some v) (some a) o fs).isCrashed = false ∧
    (adjustPhase (some v) (some a) o fs).trackContent thai_mp3 =
      some out ∧
    (adjustPhase (some v) (some a) o fs).madeCalls =
      [.atempoChain (planStages (calculate_optimal_speed (some v) (some a))),
        .trim v] := by
  simp only [adjustPhase, hp, hre, ht, if_neg hne,
    if_pos (show final1 ≠ 0 ∧ v ≠ 0 ∧ |final1 - v| > 1 from ⟨hf0, hv0, hdiff⟩),
    if_pos hlong]
  refine ⟨rfl, ?_, rfl⟩
  show renameFile _ temp_truncate thai_mp3 thai_mp3 = some out
  rw [renameFile, setFile_ne _ _ _ _ thai_ne_trunc, setFile_self,
    setFile_ne _ _ _ _ (Ne.symm thai_ne_trunc),
    renameFile, setFile_ne _ _ _ _ (Ne.symm thai_ne_trunc),
    setFile_self, setFile_ne _ _ _ _ thai_ne_temp, setFile_self]

/-- Witness for C8: factor `2`, reprobe `25` against target `10`, failed
truncation. -/
theorem adjustPhase_trunc_fail_restores_witness :
    (25 : ℚ) > 10 + 1 ∧
    (adjustPhase (some 10) (some 20)
      ⟨.ok "fast", .err none, .err (some "cut"), some 25, none,
        none⟩
      (fun p => if p = thai_mp3 then some "tts" else none)).trackContent
        thai_mp3 = some "fast" :=
  ⟨by norm_num,
    (adjustPhase_trunc_fail_restores 10 20 25
      ⟨.ok "fast", .err none, .err (some "cut"), some 25, none, none⟩
      (fun p => if p = thai_mp3 then some "tts" else none)
      "fast" (some "cut") rfl rfl rfl
      (by norm_num [calculate_optimal_speed])
      (by norm_num [calculate_optimal_speed])
      (by norm_num) (by norm_num) (by norm_num) (by norm_num)).2.1⟩

/-- C3 (code evaluated at the failing input): when the video duration
probe fails, `get_video_duration` returns `None` and `main` immediately
raises an uncaught `TypeError` at
`print(f'Video duration: {video_duration:.1f} seconds')`
(video_translate.py line 223) — the run aborts before the speed factor is
even computed, instead of proceeding with the default factor `1.5`. -/
theorem adjustPhase_video_probe_none_crashes :
    adjustPhase none (some 12)
      ⟨.err none, .err none, .err none, none, none, none⟩
      (fun p => if p = thai_mp3 then some "tts" else none) =
      .crashed .typeError := rfl

/-- C10 counterexample: with a successful primary adjustment whose
reprobe fails (`get_audio_duration` returns `None`), the phase does not
accept the candidate track — it raises an uncaught `TypeError` at
`print(f'Final TTS duration: {final_audio_duration:.1f} seconds')`
(video_translate.py line 282) and the run aborts. -/
theorem adjustPhase_reprobe_none_crashes :
    adjustPhase (some 10) (some 20)
      ⟨.ok "adjusted", .err none, .err none, none, none, none⟩
      (fun p => if p = thai_mp3 then some "tts" else none) =
      .crashed .typeError := by
  norm_num [adjustPhase, calculate_optimal_speed]

/-- C10 amended: after a successful primary adjustment, the tolerance
verification and the truncation safeguard are gated on both durations
being truthy — if the reprobed audio duration or the video duration is
`0.0`, the candidate track is accepted as final with no verification and
no truncation attempt (video_translate.py line 285). (A `None` reprobe,
by contrast, crashes the run at the duration-logging statement — see the
counterexample.) The positivity hypothesis keeps the model inside the
region where the source's planning loops terminate. -/
theorem adjustPhase_zero_duration_skips_verification (v a final1 : ℚ)
    (o : Oracles) (fs : FS) (out : Content)
    (hp : o.primary = .ok out) (hre : o.reprobe1 = some final1)
    (hne : calculate_optimal_speed (some v) (some a) ≠ 1)
    (hpos : 0 < calculate_optimal_speed (some v) (some a))
    (hz : final1 = 0 ∨ v = 0) :
    (adjustPhase (some v) (some a) o fs).isCrashed = false ∧
    (adjustPhase (some v) (some a) o fs).trackContent thai_mp3 =
      some out ∧
    (adjustPhase (some v) (some a) o fs).madeCalls =
      [.atempoChain
        (planStages (calculate_optimal_speed (some v) (some a)))] := by
  have hcond : ¬ (final1 ≠ 0 ∧ v ≠ 0 ∧ |final1 - v| > 1) := by
    rcases hz with h | h
    · exact fun hc => hc.1 h
    · exact fun hc => hc.2.1 h
  simp only [adjustPhase, hp, hre, if_neg hne, if_neg hcond]
  refine ⟨rfl, ?_, rfl⟩
  show setFile (setFile _ thai_mp3 (some out)) temp_mp3 none thai_mp3 =
    some out
  rw [setFile_ne _ _ _ _ thai_ne_temp, setFile_self]

/-- Witness for C10's amended statement: a zero video duration (factor
defaults to `1.5`) with a successful adjustment reprobed at `7`. -/
theorem adjustPhase_zero_duration_skips_verification_witness :
    calculate_optimal_speed (some 0) (some 20) ≠ 1 ∧
    (adjustPhase (some 0) (some 20)
      ⟨.ok "adjusted", .err none, .err none, some 7, none, none⟩
      (fun p => if p = thai_mp3 then some "tts" else none)).madeCalls =
      [.atempoChain
        (planStages (calculate_optimal_speed (some 0) (some 20)))] :=
  ⟨by norm_num [calculate_optimal_speed],
    (adjustPhase_zero_duration_skips_verification 0 20 7
      ⟨.ok "adjusted", .err none, .err none, some 7, none, none⟩
      (fun p => if p = thai_mp3 then some "tts" else none)
      "adjusted" rfl rfl
      (by norm_num [calculate_optimal_speed])
      (by norm_num [calculate_optimal_speed]) (Or.inr rfl)).2.2⟩

/-! ## Thai-translation fallback (video_translate.py lines 195-212). -/

/-- Embedding of `re.search(r'[฀-๿]', text)` as a Boolean:
whether the text contains any character in the Thai script block
U+0E00 to U+0E7F. -/
def hasThaiChar (s : String) : Bool :=
  s.data.any (fun c => 0x0E00 ≤ c.toNat && c.toNat ≤ 0x0E7F)

/-- Fixed fallback path the English text is written to when automatic
translation produced no Thai script (video_translate.py line 206). -/
def english_for_translation : Path := "english_for_translation.txt"

/-- Result of the Thai-translation step: the files it wrote, whether the
pipeline proceeds to synthesis / rate adjustment / muxing (`main`
executes `return` at video_translate.py line 212 otherwise), and the
Thai text used downstream when it proceeds. -/
structure Step4Out where
  writtenFiles : List (Path × Content)
  proceeds : Bool
  thaiText : String

/-- Embedding of Step 4 of `main` (video_translate.py lines 195-212):
`manualContent` is `some c` exactly when `--thai_file` was given and the
file exists, in which case its trimmed content is used; otherwise the
automatic translation `auto_thai` is checked for Thai script, and on
failure the English text is written to the fixed fallback path and the
pipeline returns early. The printed instructional messages are not part
of the model. -/
def handleThaiTranslation (manualContent : Option String)
    (english_text auto_thai : String) : Step4Out :=
  match manualContent with
  | some c => ⟨[], true, c.trim⟩
  | none =>
    if hasThaiChar auto_thai then ⟨[], true, auto_thai⟩
    else ⟨[(english_for_translation, english_text)], false, auto_thai⟩

/-- C9: when no manual translation file is used and the automatically
translated text contains no Thai-script character (U+0E00 to U+0E7F),
the pipeline writes the English intermediate text to the fixed path
`english_for_translation.txt` and returns without attempting synthesis,
rate adjustment, or muxing (`proceeds = false` models the early `return`
before Steps 5 and 6). -/
theorem handleThaiTranslation_no_thai_aborts (manualContent : Option String)
    (english_text auto_thai : String)
    (hm : manualContent = none) (ht : hasThaiChar auto_thai = false) :
    handleThaiTranslation manualContent english_text auto_thai =
      ⟨[(english_for_translation, english_text)], false, auto_thai⟩ := by
  subst hm
  simp [handleThaiTranslation, ht]

/-- Witness for C9: a purely English translation result triggers the
fallback write and the early return. -/
theorem handleThaiTranslation_no_thai_aborts_witness :
    hasThaiChar "Hello world" = false ∧
      handleThaiTranslation none "Hello world" "Hello world" =
        ⟨[(english_for_translation, "Hello world")], false,
          "Hello world"⟩ :=
  ⟨rfl,
    handleThaiTranslation_no_thai_aborts none "Hello world" "Hello world"
      rfl rfl⟩

end VideoTranslate
